import Mathlib

/-!
Shallow embedding of `src/src/rres.h` (rres resource-file reader).

The file contents that a load call observes are modelled structurally:
an `RRESFile` is the parsed byte stream — the 8-byte file header followed
by a sequence of entries, each an info header plus the `dataSize` bytes
that follow it on disk.  `Option RRESFile` models the result of `fopen`
(`none` = open failure).  `malloc` is assumed to succeed, and the
iterations that `LoadResourceById` would attempt past the physical end of
the file (when `count` exceeds the number of entries present) are not
modelled: theorems that depend on the directory contents quantify over
`entries.take count`.

Heap buffers are modelled by `CBuf`: `null` (the NULL pointer),
`valid bytes` (a live allocation holding `bytes`, whose length is the
allocation size), and `dangling` (a pointer whose allocation has been
freed — non-NULL, but invalid).  `TraceLog` output is modelled as a list
of `LogMsg` tags carrying the numeric arguments that matter.
-/

/-- File header, rres.h lines 130-134: 4 magic bytes, version, count. -/
structure RRESFileHeader where
  id0 : Nat
  id1 : Nat
  id2 : Nat
  id3 : Nat
  version : Nat
  count : Nat
deriving Repr, DecidableEq

/-- Per-entry info header, rres.h lines 137-148.  On disk `id` is an
unsigned short, `dataType` and `compType` are unsigned chars, the rest
are unsigned ints; the width bounds appear as hypotheses where they
matter. -/
structure RRESInfoHeader where
  id : Nat
  dataType : Nat
  compType : Nat
  dataSize : Nat
  uncompSize : Nat
  param1 : Nat
  param2 : Nat
  param3 : Nat
  param4 : Nat
deriving Repr, DecidableEq

/-- One directory entry: its info header plus the payload bytes stored
after it (on disk these are `dataSize` bytes; well-formedness hypotheses
state `payload.length = dataSize` where a theorem needs it). -/
structure RRESEntry where
  info : RRESInfoHeader
  payload : List Nat
deriving Repr, DecidableEq

/-- A parsed rres file: header then entries in on-disk order. -/
structure RRESFile where
  hdr : RRESFileHeader
  entries : List RRESEntry
deriving Repr, DecidableEq

/-- A C heap buffer as seen through a `void *`. -/
inductive CBuf where
  | null
  | valid (bytes : List Nat)
  | dangling
deriving Repr, DecidableEq

/-- `ptr == NULL` test: only `CBuf.null` is NULL; a dangling pointer
compares non-NULL. -/
def CBuf.isNull : CBuf → Bool
  | .null => true
  | _ => false

/-- The descriptor returned to callers (`RRESData`, rres.h lines 64-73). -/
structure RRESData where
  type : Nat
  param1 : Nat
  param2 : Nat
  param3 : Nat
  param4 : Nat
  data : CBuf
deriving Repr, DecidableEq

/-- `RRESData rres = { 0 };` — the zero descriptor. -/
def zeroDescriptor : RRESData :=
  { type := 0, param1 := 0, param2 := 0, param3 := 0, param4 := 0, data := CBuf.null }

/-- TraceLog output, abstracted to the message identity plus the numeric
arguments the claims mention. -/
inductive LogMsg where
  | openFailed
  | badMagic
  | loadedOk
  | notFound
  | decompFailed
  | sizeMismatch (expected : Nat) (actual : Int)
  | decompressedInfo (compSize : Nat) (actual : Int)
deriving Repr, DecidableEq

/-- Compression tags, rres.h lines 151-157. -/
def RRES_COMP_NONE : Nat := 0

/-- DEFLATE compression tag. -/
def RRES_COMP_DEFLATE : Nat := 1

/-- LZ4 compression tag (reserved, not implemented). -/
def RRES_COMP_LZ4 : Nat := 2

/-- LZMA compression tag (reserved, not implemented). -/
def RRES_COMP_LZMA : Nat := 3

/-- Modelled from the spec: the external DEFLATE decoder
(`tinfl_decompress_mem_to_mem`, included from `external/tinfl.c`, which is
not part of this repository) is abstracted as a function from the input
bytes and the output-buffer capacity to `some producedBytes` on success or
`none` for the decoder's `-1` failure return.  Every theorem quantifies
over the decoder or instantiates it explicitly. -/
def Decoder : Type := List Nat → Nat → Option (List Nat)

/-- The magic-byte check exactly as written at rres.h lines 200 and 262:
the four mismatch tests are joined with `&&`, so the header is rejected
only when ALL four bytes differ from `r`, `R`, `E`, `S` (ASCII 114, 82,
69, 83). -/
def magicRejected (h : RRESFileHeader) : Bool :=
  (h.id0 != 114) && (h.id1 != 82) && (h.id2 != 69) && (h.id3 != 83)

/-- `DecompressData`, rres.h lines 325-360, with `malloc` assumed to
succeed.  On decoder failure (`tempUncompSize == -1`) it logs the failure
warning and frees the buffer, but does not return early: the size
comparison `uncompSize != (int)tempUncompSize` then holds (actual `-1`),
so the mismatch warnings and the success info line are also emitted, and
the already-freed pointer is returned (`CBuf.dangling`).  On success the
buffer is the `uncompSize`-byte allocation whose first `temp` bytes were
written by the decoder (the unwritten tail is modelled as zeros). -/
def DecompressData (D : Decoder) (data : List Nat) (compSize uncompSize : Nat) :
    CBuf × List LogMsg :=
  match D data uncompSize with
  | none =>
      (CBuf.dangling,
        [LogMsg.decompFailed,
         LogMsg.sizeMismatch uncompSize (-1),
         LogMsg.decompressedInfo compSize (-1)])
  | some out =>
      let temp := out.length
      let buf := CBuf.valid (out.take uncompSize ++ List.replicate (uncompSize - temp) 0)
      if uncompSize = temp then
        (buf, [LogMsg.decompressedInfo compSize (temp : Int)])
      else
        (buf, [LogMsg.sizeMismatch uncompSize (temp : Int),
               LogMsg.decompressedInfo compSize (temp : Int)])

/-- Loading one selected entry: rres.h lines 209-230 (`LoadResource`) and
275-296 (`LoadResourceById`), which are identical.  The scalar fields are
copied from the info header; the payload (`dataSize` bytes) is read into a
fresh buffer; if `compType == RRES_COMP_DEFLATE` the payload is handed to
`DecompressData`, the raw buffer is freed and the decompressor's result
pointer is stored; for EVERY other `compType` the raw buffer itself is
stored.  The success info line fires whenever the stored pointer is
non-NULL. -/
def loadEntry (D : Decoder) (e : RRESEntry) : RRESData × List LogMsg :=
  if e.info.compType = RRES_COMP_DEFLATE then
    let p := DecompressData D e.payload e.info.dataSize e.info.uncompSize
    ({ type := e.info.dataType, param1 := e.info.param1, param2 := e.info.param2,
       param3 := e.info.param3, param4 := e.info.param4, data := p.fst },
     p.snd ++ (if p.fst.isNull then [] else [LogMsg.loadedOk]))
  else
    ({ type := e.info.dataType, param1 := e.info.param1, param2 := e.info.param2,
       param3 := e.info.param3, param4 := e.info.param4, data := CBuf.valid e.payload },
     [LogMsg.loadedOk])

/-- `LoadResource`, rres.h lines 179-237: open, read the file header,
apply the (buggy) magic check, then read and load exactly one info header
and its payload — the `count` field and every later entry are never
looked at, and the first entry's `id` is never compared against
anything.  Reading the first info header of an entry-less stream hits
EOF and is not modelled (zero result). -/
def LoadResource (D : Decoder) (file : Option RRESFile) : RRESData × List LogMsg :=
  match file with
  | none => (zeroDescriptor, [LogMsg.openFailed])
  | some f =>
      if magicRejected f.hdr then (zeroDescriptor, [LogMsg.badMagic])
      else
        match f.entries with
        | [] => (zeroDescriptor, [])
        | e :: _ => loadEntry D e

/-- The directory loop of `LoadResourceById`, rres.h lines 268-303.  Each
iteration reads the next info header; on `infoHeader.id == rresId` (the
unsigned short promoted to `int`) it loads the entry — overwriting every
field of the accumulator, since lines 276-294 assign all six — and the
loop CONTINUES: there is no `break`, so a later duplicate overwrites an
earlier match.  On a non-match it seeks past the payload. -/
def loadByIdLoop (D : Decoder) (rresId : Int) :
    List RRESEntry → RRESData → List LogMsg → RRESData × List LogMsg
  | [], rres, log => (rres, log)
  | e :: rest, rres, log =>
      if (e.info.id : Int) = rresId then
        let p := loadEntry D e
        loadByIdLoop D rresId rest p.fst (log ++ p.snd)
      else
        loadByIdLoop D rresId rest rres log

/-- The post-loop check at rres.h line 305: `if (rres.data == NULL)` emit
the not-found warning (a dangling pointer is non-NULL, so a failed
decompression suppresses the warning). -/
def notFoundCheck (p : RRESData × List LogMsg) : RRESData × List LogMsg :=
  if p.fst.data.isNull then (p.fst, p.snd ++ [LogMsg.notFound]) else p

/-- `LoadResourceById`, rres.h lines 241-312: open, read the file header,
apply the (buggy) magic check, run the directory loop over the first
`count` entries, and finally apply the not-found check. -/
def LoadResourceById (D : Decoder) (file : Option RRESFile) (rresId : Int) :
    RRESData × List LogMsg :=
  match file with
  | none => (zeroDescriptor, [LogMsg.openFailed])
  | some f =>
      if magicRejected f.hdr then (zeroDescriptor, [LogMsg.badMagic])
      else notFoundCheck (loadByIdLoop D rresId (f.entries.take f.hdr.count) zeroDescriptor [])

/-- `UnloadResource`, rres.h lines 314-317: free the buffer when non-NULL. -/
def UnloadResource (rres : RRESData) : CBuf :=
  if rres.data.isNull then rres.data else CBuf.dangling

/-- The last entry of the list whose (promoted) id equals the requested
id, if any — the entry whose descriptor the no-`break` loop ends up
returning. -/
def lastMatch (rresId : Int) : List RRESEntry → Option RRESEntry
  | [] => none
  | e :: rest =>
      match lastMatch rresId rest with
      | some e2 => some e2
      | none => if (e.info.id : Int) = rresId then some e else none

/-- A decoder that always fails, as `tinfl` does on a corrupt stream. -/
def failDecoder : Decoder := fun _ _ => none

/-- A file whose magic bytes are `r`, `X`, `X`, `X` (only the first byte
correct), followed by one raw entry with id 7. -/
def c1File : RRESFile :=
  { hdr := { id0 := 114, id1 := 88, id2 := 88, id3 := 88, version := 1, count := 1 },
    entries := [{ info := { id := 7, dataType := 4, compType := 0, dataSize := 2,
                            uncompSize := 2, param1 := 11, param2 := 12, param3 := 13,
                            param4 := 14 },
                  payload := [5, 6] }] }

/-- An uncompressed entry with id 7, type 1, payload `[65]`. -/
def c2e1 : RRESEntry :=
  { info := { id := 7, dataType := 1, compType := 0, dataSize := 1,
              uncompSize := 1, param1 := 1, param2 := 2, param3 := 3, param4 := 4 },
    payload := [65] }

/-- An uncompressed entry that duplicates id 7, type 4, payload `[66, 66]`. -/
def c2e2 : RRESEntry :=
  { info := { id := 7, dataType := 4, compType := 0, dataSize := 2,
              uncompSize := 2, param1 := 5, param2 := 6, param3 := 7, param4 := 8 },
    payload := [66, 66] }

/-- A valid-magic file with two entries sharing id 7. -/
def c2File : RRESFile :=
  { hdr := { id0 := 114, id1 := 82, id2 := 69, id3 := 83, version := 1, count := 2 },
    entries := [c2e1, c2e2] }

/-- A valid-magic file with one entry carrying the reserved LZ4
compression tag (`compType = 2`), payload `[9, 9, 9]`. -/
def c3File : RRESFile :=
  { hdr := { id0 := 114, id1 := 82, id2 := 69, id3 := 83, version := 1, count := 1 },
    entries :=
      [{ info := { id := 3, dataType := 1, compType := 2, dataSize := 3,
                   uncompSize := 10, param1 := 0, param2 := 0, param3 := 0, param4 := 0 },
         payload := [9, 9, 9] }] }

/-- A DEFLATE-compressed entry: id 5, dataSize 2, uncompSize 4,
payload `[1, 2]`, parameters 21..24. -/
def c4e : RRESEntry :=
  { info := { id := 5, dataType := 1, compType := 1, dataSize := 2,
              uncompSize := 4, param1 := 21, param2 := 22, param3 := 23, param4 := 24 },
    payload := [1, 2] }

/-- A valid-magic file whose single entry is the DEFLATE entry `c4e`. -/
def c4File : RRESFile :=
  { hdr := { id0 := 114, id1 := 82, id2 := 69, id3 := 83, version := 1, count := 1 },
    entries := [c4e] }

/-- A valid-magic file with a single uncompressed raw entry of id 7 and
payload `[10, 20, 30]`. -/
def c7e : RRESEntry :=
  { info := { id := 7, dataType := 0, compType := 0, dataSize := 3,
              uncompSize := 3, param1 := 0, param2 := 0, param3 := 0, param4 := 0 },
    payload := [10, 20, 30] }

/-- The file holding exactly the raw entry `c7e`. -/
def c7File : RRESFile :=
  { hdr := { id0 := 114, id1 := 82, id2 := 69, id3 := 83, version := 1, count := 1 },
    entries := [c7e] }

/-- A decoder that accepts every stream and produces the single byte
`[42]` — used to exercise the size-mismatch path. -/
def shortDecoder : Decoder := fun _ _ => some [42]

/-- A valid-magic file whose single entry is uncompressed but declares
`uncompSize = 5` while carrying (and declaring) a 2-byte payload. -/
def c5File : RRESFile :=
  { hdr := { id0 := 114, id1 := 82, id2 := 69, id3 := 83, version := 1, count := 1 },
    entries :=
      [{ info := { id := 9, dataType := 2, compType := 0, dataSize := 2,
                   uncompSize := 5, param1 := 0, param2 := 0, param3 := 0, param4 := 0 },
         payload := [1, 2] }] }

/-- Claim C1, refuting evaluation.  The claim says any file whose first
four bytes are not exactly `r`,`R`,`E`,`S` is rejected with the bad-magic
warning and the zero descriptor by both loaders.  On `c1File` (magic
`rXXX`, not valid) the `&&`-joined check at rres.h lines 200/262 passes —
it rejects only when all four bytes mismatch — so both `LoadResource` and
`LoadResourceById` parse the file and return the first entry's data with
no bad-magic warning. -/
theorem c1_partial_magic_accepted :
    magicRejected c1File.hdr = false ∧
    LoadResourceById failDecoder (some c1File) 7 =
      ({ type := 4, param1 := 11, param2 := 12, param3 := 13, param4 := 14,
         data := CBuf.valid [5, 6] }, [LogMsg.loadedOk]) ∧
    LoadResource failDecoder (some c1File) =
      ({ type := 4, param1 := 11, param2 := 12, param3 := 13, param4 := 14,
         data := CBuf.valid [5, 6] }, [LogMsg.loadedOk]) := by decide

/-- Claim C2, counterexample.  On `c2File` (two entries with id 7) the
claim predicts the descriptor built from the FIRST matching entry
(type 1, payload `[65]`).  The loop has no `break`, so the second match
overwrites the first: the returned descriptor is the second entry's. -/
theorem c2_first_match_loses :
    (LoadResourceById failDecoder (some c2File) 7).fst ≠
      { type := 1, param1 := 1, param2 := 2, param3 := 3, param4 := 4,
        data := CBuf.valid [65] } ∧
    (LoadResourceById failDecoder (some c2File) 7).fst =
      { type := 4, param1 := 5, param2 := 6, param3 := 7, param4 := 8,
        data := CBuf.valid [66, 66] } := by decide

/-- Claim C3, refuting evaluation.  The claim says an entry whose
`compType` is neither none nor deflate is a hard failure: warning, raw
payload released, zero descriptor.  The code's `if deflate ... else` at
rres.h lines 286-294 treats every non-deflate tag like none: on `c3File`
(LZ4 entry) the undecoded raw payload is handed to the caller, the only
log line is the success info, and the descriptor is not zero. -/
theorem c3_lz4_raw_payload_exposed :
    LoadResourceById failDecoder (some c3File) 3 =
      ({ type := 1, param1 := 0, param2 := 0, param3 := 0, param4 := 0,
         data := CBuf.valid [9, 9, 9] }, [LogMsg.loadedOk]) := by decide

/-- Claim C4, refuting evaluation.  The claim says a rejected DEFLATE
payload yields the zero descriptor with a null `data`, never a pointer to
released memory.  `DecompressData` frees the buffer on decoder failure
but still returns it (rres.h lines 343-359), so both loaders store the
dangling pointer: `data` is non-NULL freed memory, the success info line
is even emitted, and `LoadResourceById` suppresses its not-found warning. -/
theorem c4_decoder_failure_dangling_data :
    LoadResource failDecoder (some c4File) =
      ({ type := 1, param1 := 21, param2 := 22, param3 := 23, param4 := 24,
         data := CBuf.dangling },
       [LogMsg.decompFailed, LogMsg.sizeMismatch 4 (-1),
        LogMsg.decompressedInfo 2 (-1), LogMsg.loadedOk]) ∧
    (LoadResource failDecoder (some c4File)).fst.data.isNull = false ∧
    LoadResourceById failDecoder (some c4File) 5 =
      ({ type := 1, param1 := 21, param2 := 22, param3 := 23, param4 := 24,
         data := CBuf.dangling },
       [LogMsg.decompFailed, LogMsg.sizeMismatch 4 (-1),
        LogMsg.decompressedInfo 2 (-1), LogMsg.loadedOk]) := by decide

/-- Claim C5, counterexample.  The claim says every returned descriptor
has a buffer of exactly the entry's declared `uncompSize` bytes or is the
zero descriptor.  On `c5File` the none-compression entry declares
`uncompSize = 5` but the loader returns its `dataSize = 2` payload bytes
unchecked: a 2-byte buffer in a non-zero descriptor. -/
theorem c5_uncomp_size_claim_false :
    (LoadResource failDecoder (some c5File)).fst.data = CBuf.valid [1, 2] ∧
    (LoadResource failDecoder (some c5File)).fst ≠ zeroDescriptor ∧
    c5File.entries =
      [{ info := { id := 9, dataType := 2, compType := 0, dataSize := 2,
                   uncompSize := 5, param1 := 0, param2 := 0, param3 := 0,
                   param4 := 0 },
         payload := [1, 2] }] := by decide

/-- The decompression output buffer is always exactly `uncompSize` bytes:
the decoder writes at most the capacity and the remainder of the
allocation is retained. -/
theorem take_pad_length (out : List Nat) (u : Nat) :
    (out.take u ++ List.replicate (u - out.length) 0).length = u := by
  simp [List.length_take]
  omega

/-- The pointer returned by `DecompressData` is the dangling freed
buffer on decoder failure and a live `uncompSize`-byte buffer on decoder
success. -/
theorem DecompressData_fst (D : Decoder) (data : List Nat) (c u : Nat) :
    (DecompressData D data c u).fst = CBuf.dangling ∨
      ∃ bs, (DecompressData D data c u).fst = CBuf.valid bs ∧ bs.length = u := by
  unfold DecompressData
  cases h : D data u with
  | none => exact Or.inl rfl
  | some out =>
      right
      refine ⟨out.take u ++ List.replicate (u - out.length) 0, ?_, take_pad_length out u⟩
      by_cases hu : u = out.length
      · simp [hu]
      · simp [hu]

/-- The scalar fields of a loaded entry always come from its info header,
for every decoder outcome. -/
theorem loadEntry_scalars (D : Decoder) (e : RRESEntry) :
    (loadEntry D e).fst.type = e.info.dataType ∧
    (loadEntry D e).fst.param1 = e.info.param1 ∧
    (loadEntry D e).fst.param2 = e.info.param2 ∧
    (loadEntry D e).fst.param3 = e.info.param3 ∧
    (loadEntry D e).fst.param4 = e.info.param4 := by
  unfold loadEntry
  split
  · exact ⟨rfl, rfl, rfl, rfl, rfl⟩
  · exact ⟨rfl, rfl, rfl, rfl, rfl⟩

/-- The data pointer of a loaded entry: for a DEFLATE entry it is
`DecompressData`'s result, otherwise the raw payload buffer. -/
theorem loadEntry_data (D : Decoder) (e : RRESEntry) :
    (loadEntry D e).fst.data =
      (if e.info.compType = RRES_COMP_DEFLATE then
        (DecompressData D e.payload e.info.dataSize e.info.uncompSize).fst
      else CBuf.valid e.payload) := by
  unfold loadEntry
  split
  · rfl
  · rfl

/-- The data pointer of a loaded entry is dangling (failed DEFLATE) or a
live buffer of `uncompSize` bytes (DEFLATE) resp. `dataSize` bytes (any
other compression tag, given the payload is as declared). -/
theorem loadEntry_data_cases (D : Decoder) (e : RRESEntry)
    (hwf : e.payload.length = e.info.dataSize) :
    (loadEntry D e).fst.data = CBuf.dangling ∨
      ∃ bs, (loadEntry D e).fst.data = CBuf.valid bs ∧
        bs.length = (if e.info.compType = RRES_COMP_DEFLATE then e.info.uncompSize
                     else e.info.dataSize) := by
  rw [loadEntry_data]
  by_cases h : e.info.compType = RRES_COMP_DEFLATE
  · rw [if_pos h, if_pos h]
    exact DecompressData_fst D e.payload e.info.dataSize e.info.uncompSize
  · rw [if_neg h, if_neg h]
    exact Or.inr ⟨e.payload, rfl, hwf⟩

/-- When no entry of the list matches the requested id, the directory
loop only seeks past payloads and changes nothing. -/
theorem loadByIdLoop_no_match (D : Decoder) (rid : Int) :
    ∀ (es : List RRESEntry) (acc : RRESData) (log : List LogMsg),
      (∀ e ∈ es, (e.info.id : Int) ≠ rid) →
      loadByIdLoop D rid es acc log = (acc, log) := by
  intro es
  induction es with
  | nil => intro acc log _; rfl
  | cons a rest ih =>
      intro acc log h
      unfold loadByIdLoop
      rw [if_neg (h a (List.mem_cons_self a rest))]
      exact ih acc log (fun e2 he2 => h e2 (List.mem_cons_of_mem a he2))

/-- An entry returned by `lastMatch` is a member of the list and its
promoted id equals the requested id. -/
theorem lastMatch_spec (rid : Int) :
    ∀ (es : List RRESEntry) (e : RRESEntry), lastMatch rid es = some e →
      e ∈ es ∧ (e.info.id : Int) = rid := by
  intro es
  induction es with
  | nil => intro e h; simp [lastMatch] at h
  | cons a rest ih =>
      intro e h
      unfold lastMatch at h
      cases hr : lastMatch rid rest with
      | some e2 =>
          rw [hr] at h
          obtain ⟨hm, hid⟩ := ih e2 hr
          cases h
          exact ⟨List.mem_cons_of_mem a hm, hid⟩
      | none =>
          rw [hr] at h
          by_cases ha : (a.info.id : Int) = rid
          · rw [if_pos ha] at h
            cases h
            exact ⟨List.mem_cons_self a rest, ha⟩
          · rw [if_neg ha] at h
            cases h

/-- `lastMatch` finds a match whenever one is present. -/
theorem lastMatch_isSome_of_mem (rid : Int) :
    ∀ (es : List RRESEntry) (e : RRESEntry), e ∈ es → (e.info.id : Int) = rid →
      (lastMatch rid es).isSome := by
  intro es
  induction es with
  | nil => intro e h; simp at h
  | cons a rest ih =>
      intro e hmem hid
      unfold lastMatch
      cases hr : lastMatch rid rest with
      | some e2 => rfl
      | none =>
          rcases List.mem_cons.mp hmem with h | h
          · subst h
            rw [if_pos hid]
            rfl
          · have := ih e h hid
            rw [hr] at this
            simp at this

/-- When exactly one entry of the list matches the requested id (up to
equality of entries), `lastMatch` returns it. -/
theorem lastMatch_of_unique (rid : Int) :
    ∀ (es : List RRESEntry) (e : RRESEntry), e ∈ es → (e.info.id : Int) = rid →
      (∀ e2 ∈ es, (e2.info.id : Int) = rid → e2 = e) →
      lastMatch rid es = some e := by
  intro es
  induction es with
  | nil => intro e h; simp at h
  | cons a rest ih =>
      intro e hmem hid huniq
      unfold lastMatch
      cases hr : lastMatch rid rest with
      | some e2 =>
          obtain ⟨hm2, hid2⟩ := lastMatch_spec rid rest e2 hr
          rw [huniq e2 (List.mem_cons_of_mem a hm2) hid2]
      | none =>
          rcases List.mem_cons.mp hmem with h | h
          · subst h
            rw [if_pos hid]
          · have := lastMatch_isSome_of_mem rid rest e h hid
            rw [hr] at this
            simp at this

/-- The descriptor the directory loop ends with is the initial
accumulator when nothing matched, and the descriptor of the LAST matching
entry otherwise (every field of the accumulator is overwritten on each
match). -/
theorem loadByIdLoop_fst (D : Decoder) (rid : Int) :
    ∀ (es : List RRESEntry) (acc : RRESData) (log : List LogMsg),
      (loadByIdLoop D rid es acc log).fst =
        (match lastMatch rid es with
         | none => acc
         | some e => (loadEntry D e).fst) := by
  intro es
  induction es with
  | nil => intro acc log; rfl
  | cons a rest ih =>
      intro acc log
      unfold loadByIdLoop lastMatch
      by_cases h : (a.info.id : Int) = rid
      · rw [if_pos h, ih]
        cases hr : lastMatch rid rest with
        | some e2 => rfl
        | none => rw [if_pos h]
      · rw [if_neg h, ih]
        cases hr : lastMatch rid rest with
        | some e2 => rfl
        | none => rw [if_neg h]

/-- The not-found check never changes the descriptor itself. -/
theorem notFoundCheck_fst (p : RRESData × List LogMsg) :
    (notFoundCheck p).fst = p.fst := by
  unfold notFoundCheck
  split
  · rfl
  · rfl

/-- Descriptor returned by `LoadResourceById` once the magic check has
passed: the zero descriptor when no entry among the first `count`
matches, else the descriptor of the last matching entry. -/
theorem LoadResourceById_fst (D : Decoder) (f : RRESFile) (rid : Int)
    (hm : magicRejected f.hdr = false) :
    (LoadResourceById D (some f) rid).fst =
      (match lastMatch rid (f.entries.take f.hdr.count) with
       | none => zeroDescriptor
       | some e => (loadEntry D e).fst) := by
  show (if magicRejected f.hdr = true then (zeroDescriptor, [LogMsg.badMagic])
        else notFoundCheck (loadByIdLoop D rid (f.entries.take f.hdr.count)
          zeroDescriptor [])).fst = _
  rw [hm]
  simp only [Bool.false_eq_true, if_false]
  rw [notFoundCheck_fst, loadByIdLoop_fst]

/-- `LoadResource` on a file with a valid-for-the-code magic and at least
one entry is exactly the load of the first entry. -/
theorem LoadResource_eq (D : Decoder) (f : RRESFile) (e : RRESEntry)
    (rest : List RRESEntry) (hm : magicRejected f.hdr = false)
    (he : f.entries = e :: rest) :
    LoadResource D (some f) = loadEntry D e := by
  show (if magicRejected f.hdr = true then (zeroDescriptor, [LogMsg.badMagic])
        else match f.entries with
             | [] => (zeroDescriptor, [])
             | e :: _ => loadEntry D e) = _
  rw [hm, he]
  simp only [Bool.false_eq_true, if_false]

/-- A rejected magic makes `LoadResource` return the zero descriptor with
only the bad-magic warning. -/
theorem LoadResource_badMagic (D : Decoder) (f : RRESFile)
    (hm : magicRejected f.hdr = true) :
    LoadResource D (some f) = (zeroDescriptor, [LogMsg.badMagic]) := by
  show (if magicRejected f.hdr = true then (zeroDescriptor, [LogMsg.badMagic])
        else match f.entries with
             | [] => (zeroDescriptor, [])
             | e :: _ => loadEntry D e) = _
  rw [hm]
  simp only [if_true]

/-- A rejected magic makes `LoadResourceById` return the zero descriptor
with only the bad-magic warning. -/
theorem LoadResourceById_badMagic (D : Decoder) (f : RRESFile) (rid : Int)
    (hm : magicRejected f.hdr = true) :
    LoadResourceById D (some f) rid = (zeroDescriptor, [LogMsg.badMagic]) := by
  show (if magicRejected f.hdr = true then (zeroDescriptor, [LogMsg.badMagic])
        else notFoundCheck (loadByIdLoop D rid (f.entries.take f.hdr.count)
          zeroDescriptor [])) = _
  rw [hm]
  simp only [if_true]

/-- Full evaluation of `DecompressData` when the decoder succeeds. -/
theorem DecompressData_some (D : Decoder) (data : List Nat) (c u : Nat)
    (out : List Nat) (hdec : D data u = some out) :
    DecompressData D data c u =
      (CBuf.valid (out.take u ++ List.replicate (u - out.length) 0),
       if u = out.length then [LogMsg.decompressedInfo c (out.length : Int)]
       else [LogMsg.sizeMismatch u (out.length : Int),
             LogMsg.decompressedInfo c (out.length : Int)]) := by
  unfold DecompressData
  rw [hdec]
  dsimp only
  by_cases h : u = out.length
  · rw [if_pos h, if_pos h]
  · rw [if_neg h, if_neg h]

/-- `LoadResource` on a valid-for-the-code magic but an entry-less
stream gives the zero result (the EOF read is not modelled). -/
theorem LoadResource_nil (D : Decoder) (f : RRESFile)
    (hm : magicRejected f.hdr = false) (he : f.entries = []) :
    LoadResource D (some f) = (zeroDescriptor, []) := by
  show (if magicRejected f.hdr = true then (zeroDescriptor, [LogMsg.badMagic])
        else match f.entries with
             | [] => (zeroDescriptor, [])
             | e :: _ => loadEntry D e) = _
  rw [hm, he]
  simp only [Bool.false_eq_true, if_false]

/-- Claim C2 (amended): once the magic check passes, `LoadResourceById`
returns the descriptor built from the LAST matching entry among the first
`count` entries — the loop has no `break`, so each later duplicate
overwrites the earlier descriptor instead of the first match winning. -/
theorem c2_last_match_wins (D : Decoder) (f : RRESFile) (rid : Int) (e : RRESEntry)
    (hm : magicRejected f.hdr = false)
    (hlast : lastMatch rid (f.entries.take f.hdr.count) = some e) :
    (LoadResourceById D (some f) rid).fst = (loadEntry D e).fst := by
  rw [LoadResourceById_fst D f rid hm, hlast]

/-- Witness for `c2_last_match_wins` at the duplicate-id file `c2File`. -/
theorem c2_last_match_wins_witness :
    magicRejected c2File.hdr = false ∧
    lastMatch 7 (c2File.entries.take c2File.hdr.count) = some c2e2 ∧
    (LoadResourceById failDecoder (some c2File) 7).fst = (loadEntry failDecoder c2e2).fst :=
  ⟨by decide, by decide,
   c2_last_match_wins failDecoder c2File 7 c2e2 (by decide) (by decide)⟩

/-- Claim C9: a requested id outside `0..65535` (in particular any
negative id) can never equal an on-disk unsigned-16-bit entry id, so
`LoadResourceById` leaves the zero descriptor untouched and emits exactly
the not-found warning. -/
theorem c9_out_of_range_id_not_found (D : Decoder) (f : RRESFile) (rid : Int)
    (hm : magicRejected f.hdr = false)
    (hids : ∀ e ∈ f.entries, e.info.id < 65536)
    (hout : rid < 0 ∨ 65535 < rid) :
    LoadResourceById D (some f) rid = (zeroDescriptor, [LogMsg.notFound]) := by
  have hno : ∀ e ∈ f.entries.take f.hdr.count, (e.info.id : Int) ≠ rid := by
    intro e he heq
    have hlt := hids e (List.mem_of_mem_take he)
    rcases hout with h | h
    · omega
    · omega
  show (if magicRejected f.hdr = true then (zeroDescriptor, [LogMsg.badMagic])
        else notFoundCheck (loadByIdLoop D rid (f.entries.take f.hdr.count)
          zeroDescriptor [])) = _
  rw [hm]
  simp only [Bool.false_eq_true, if_false]
  rw [loadByIdLoop_no_match D rid _ _ _ hno]
  rfl

/-- Witness for `c9_out_of_range_id_not_found`: requesting id `-1` from
the valid single-entry file `c3File`. -/
theorem c9_out_of_range_id_not_found_witness :
    magicRejected c3File.hdr = false ∧
    ((-1 : Int) < 0 ∨ (65535 : Int) < -1) ∧
    LoadResourceById failDecoder (some c3File) (-1) = (zeroDescriptor, [LogMsg.notFound]) :=
  ⟨by decide, Or.inl (by decide),
   c9_out_of_range_id_not_found failDecoder c3File (-1) (by decide) (by decide)
     (Or.inl (by decide))⟩

/-- Claim C7: an uncompressed (`compType = none`) entry that is the only
match for its id round-trips: `LoadResourceById` returns exactly the
payload bytes that were packaged. -/
theorem c7_raw_roundtrip (D : Decoder) (f : RRESFile) (rid : Int) (e : RRESEntry)
    (hm : magicRejected f.hdr = false)
    (hmem : e ∈ f.entries.take f.hdr.count)
    (hid : (e.info.id : Int) = rid)
    (huniq : ∀ e2 ∈ f.entries.take f.hdr.count, (e2.info.id : Int) = rid → e2 = e)
    (hnone : e.info.compType = RRES_COMP_NONE) :
    (LoadResourceById D (some f) rid).fst.data = CBuf.valid e.payload := by
  rw [LoadResourceById_fst D f rid hm,
      lastMatch_of_unique rid (f.entries.take f.hdr.count) e hmem hid huniq]
  show (loadEntry D e).fst.data = _
  rw [loadEntry_data]
  rw [if_neg (by rw [hnone]; decide)]

/-- Witness for `c7_raw_roundtrip` at `c7File` and its payload
`[10, 20, 30]`. -/
theorem c7_raw_roundtrip_witness :
    magicRejected c7File.hdr = false ∧
    c7e ∈ c7File.entries.take c7File.hdr.count ∧
    (c7e.info.id : Int) = 7 ∧
    c7e.info.compType = RRES_COMP_NONE ∧
    (LoadResourceById failDecoder (some c7File) 7).fst.data = CBuf.valid [10, 20, 30] :=
  ⟨by decide, by decide, by decide, by decide,
   c7_raw_roundtrip failDecoder c7File 7 c7e (by decide) (by decide) (by decide)
     (by decide) (by decide)⟩

/-- Claim C5 (amended): a returned descriptor's `data` is the NULL
pointer (zero state), or a dangling freed pointer (after a failed DEFLATE
decompression), or a live buffer whose length is the matched entry's
declared `uncompSize` for a DEFLATE entry and its declared `dataSize` for
every other compression tag — which equals `uncompSize` only under the
well-formedness rule `uncompSize = dataSize` for uncompressed entries.
Open failure returns the NULL data of the zero descriptor. -/
theorem c5_data_length_cases (D : Decoder) (f : RRESFile) (rid : Int)
    (hwf : ∀ e ∈ f.entries, e.payload.length = e.info.dataSize) :
    ((LoadResourceById D (some f) rid).fst.data = CBuf.null ∨
     (LoadResourceById D (some f) rid).fst.data = CBuf.dangling ∨
     (∃ e ∈ f.entries, ∃ bs, (LoadResourceById D (some f) rid).fst.data = CBuf.valid bs ∧
        bs.length = (if e.info.compType = RRES_COMP_DEFLATE then e.info.uncompSize
                     else e.info.dataSize))) ∧
    ((LoadResource D (some f)).fst.data = CBuf.null ∨
     (LoadResource D (some f)).fst.data = CBuf.dangling ∨
     (∃ e ∈ f.entries, ∃ bs, (LoadResource D (some f)).fst.data = CBuf.valid bs ∧
        bs.length = (if e.info.compType = RRES_COMP_DEFLATE then e.info.uncompSize
                     else e.info.dataSize))) ∧
    (LoadResourceById D none rid).fst.data = CBuf.null ∧
    (LoadResource D none).fst.data = CBuf.null := by
  refine ⟨?_, ?_, rfl, rfl⟩
  · by_cases hm : magicRejected f.hdr = true
    · rw [LoadResourceById_badMagic D f rid hm]
      exact Or.inl rfl
    · have hm' : magicRejected f.hdr = false := by
        simp only [Bool.not_eq_true] at hm
        exact hm
      rw [LoadResourceById_fst D f rid hm']
      cases hl : lastMatch rid (f.entries.take f.hdr.count) with
      | none => exact Or.inl rfl
      | some e =>
          have hmem : e ∈ f.entries :=
            List.mem_of_mem_take (lastMatch_spec rid _ e hl).1
          rcases loadEntry_data_cases D e (hwf e hmem) with h | ⟨bs, hb, hlen⟩
          · exact Or.inr (Or.inl h)
          · exact Or.inr (Or.inr ⟨e, hmem, bs, hb, hlen⟩)
  · by_cases hm : magicRejected f.hdr = true
    · rw [LoadResource_badMagic D f hm]
      exact Or.inl rfl
    · have hm' : magicRejected f.hdr = false := by
        simp only [Bool.not_eq_true] at hm
        exact hm
      cases he : f.entries with
      | nil =>
          rw [LoadResource_nil D f hm' he]
          exact Or.inl rfl
      | cons e rest =>
          rw [LoadResource_eq D f e rest hm' he]
          have hmem : e ∈ e :: rest := List.mem_cons_self e rest
          have hmemf : e ∈ f.entries := by
            rw [he]
            exact hmem
          rcases loadEntry_data_cases D e (hwf e hmemf) with h | ⟨bs, hb, hlen⟩
          · exact Or.inr (Or.inl h)
          · exact Or.inr (Or.inr ⟨e, hmem, bs, hb, hlen⟩)

/-- Witness for `c5_data_length_cases` at `c5File` (buffer of
`dataSize = 2` bytes, not the claimed `uncompSize = 5`). -/
theorem c5_data_length_cases_witness :
    (((LoadResourceById failDecoder (some c5File) 9).fst.data = CBuf.null ∨
      (LoadResourceById failDecoder (some c5File) 9).fst.data = CBuf.dangling ∨
      (∃ e ∈ c5File.entries, ∃ bs,
         (LoadResourceById failDecoder (some c5File) 9).fst.data = CBuf.valid bs ∧
         bs.length = (if e.info.compType = RRES_COMP_DEFLATE then e.info.uncompSize
                      else e.info.dataSize))) ∧
     ((LoadResource failDecoder (some c5File)).fst.data = CBuf.null ∨
      (LoadResource failDecoder (some c5File)).fst.data = CBuf.dangling ∨
      (∃ e ∈ c5File.entries, ∃ bs,
         (LoadResource failDecoder (some c5File)).fst.data = CBuf.valid bs ∧
         bs.length = (if e.info.compType = RRES_COMP_DEFLATE then e.info.uncompSize
                      else e.info.dataSize))) ∧
     (LoadResourceById failDecoder none 9).fst.data = CBuf.null ∧
     (LoadResource failDecoder none).fst.data = CBuf.null) :=
  c5_data_length_cases failDecoder c5File 9 (by decide)

/-- `loadEntry` never reads the entry's id: replacing it changes
nothing. -/
theorem loadEntry_id_irrel (D : Decoder) (e : RRESEntry) (n : Nat) :
    loadEntry D { info := { id := n, dataType := e.info.dataType,
                            compType := e.info.compType, dataSize := e.info.dataSize,
                            uncompSize := e.info.uncompSize, param1 := e.info.param1,
                            param2 := e.info.param2, param3 := e.info.param3,
                            param4 := e.info.param4 },
                  payload := e.payload } = loadEntry D e := rfl

/-- Claim C6: once the magic check passes, `LoadResource` on a file whose
first entry is well formed (payload as declared; either uncompressed with
`uncompSize = dataSize`, or DEFLATE with a stream the decoder accepts)
returns a descriptor whose `type` is the first entry's declared type and
whose buffer is exactly its declared `uncompSize` bytes; moreover the
result is unchanged by the header's `count` field, by every entry after
the first, and by the first entry's identifier — exactly one info header
is parsed and its id ignored. -/
theorem c6_load_first_contract (D : Decoder) (f : RRESFile) (e : RRESEntry)
    (rest : List RRESEntry)
    (hm : magicRejected f.hdr = false)
    (he : f.entries = e :: rest)
    (hwf : e.payload.length = e.info.dataSize)
    (hcomp : (e.info.compType = RRES_COMP_NONE ∧ e.info.uncompSize = e.info.dataSize) ∨
             (e.info.compType = RRES_COMP_DEFLATE ∧
              ∃ out, D e.payload e.info.uncompSize = some out)) :
    (LoadResource D (some f)).fst.type = e.info.dataType ∧
    (∃ bs, (LoadResource D (some f)).fst.data = CBuf.valid bs ∧
       bs.length = e.info.uncompSize) ∧
    (∀ (c : Nat) (rest2 : List RRESEntry) (n : Nat),
       LoadResource D (some
         { hdr := { id0 := f.hdr.id0, id1 := f.hdr.id1, id2 := f.hdr.id2,
                    id3 := f.hdr.id3, version := f.hdr.version, count := c },
           entries := { info := { id := n, dataType := e.info.dataType,
                                  compType := e.info.compType,
                                  dataSize := e.info.dataSize,
                                  uncompSize := e.info.uncompSize,
                                  param1 := e.info.param1, param2 := e.info.param2,
                                  param3 := e.info.param3, param4 := e.info.param4 },
                        payload := e.payload } :: rest2 }) =
         LoadResource D (some f)) := by
  rw [LoadResource_eq D f e rest hm he]
  refine ⟨(loadEntry_scalars D e).1, ?_, ?_⟩
  · rw [loadEntry_data]
    rcases hcomp with ⟨h0, hu⟩ | ⟨h1, out, hdec⟩
    · rw [if_neg (by rw [h0]; decide)]
      exact ⟨e.payload, rfl, by rw [hwf, hu]⟩
    · rw [if_pos h1,
          DecompressData_some D e.payload e.info.dataSize e.info.uncompSize out hdec]
      exact ⟨_, rfl, take_pad_length out e.info.uncompSize⟩
  · intro c rest2 n
    have hstep := LoadResource_eq D
      { hdr := { id0 := f.hdr.id0, id1 := f.hdr.id1, id2 := f.hdr.id2,
                 id3 := f.hdr.id3, version := f.hdr.version, count := c },
        entries := { info := { id := n, dataType := e.info.dataType,
                               compType := e.info.compType,
                               dataSize := e.info.dataSize,
                               uncompSize := e.info.uncompSize,
                               param1 := e.info.param1, param2 := e.info.param2,
                               param3 := e.info.param3, param4 := e.info.param4 },
                     payload := e.payload } :: rest2 }
      { info := { id := n, dataType := e.info.dataType,
                  compType := e.info.compType, dataSize := e.info.dataSize,
                  uncompSize := e.info.uncompSize, param1 := e.info.param1,
                  param2 := e.info.param2, param3 := e.info.param3,
                  param4 := e.info.param4 },
        payload := e.payload }
      rest2 hm rfl
    rw [hstep]
    exact loadEntry_id_irrel D e n

/-- Witness for `c6_load_first_contract` at `c2File`: the first entry
`c2e1` has type 1 and a 1-byte uncompressed payload. -/
theorem c6_load_first_contract_witness :
    magicRejected c2File.hdr = false ∧
    c2File.entries = c2e1 :: [c2e2] ∧
    c2e1.payload.length = c2e1.info.dataSize ∧
    (LoadResource failDecoder (some c2File)).fst.type = c2e1.info.dataType ∧
    (∃ bs, (LoadResource failDecoder (some c2File)).fst.data = CBuf.valid bs ∧
       bs.length = c2e1.info.uncompSize) :=
  ⟨by decide, by decide, by decide,
   (c6_load_first_contract failDecoder c2File c2e1 [c2e2] (by decide) (by decide)
      (by decide) (Or.inl ⟨by decide, by decide⟩)).1,
   (c6_load_first_contract failDecoder c2File c2e1 [c2e2] (by decide) (by decide)
      (by decide) (Or.inl ⟨by decide, by decide⟩)).2.1⟩

/-- Claim C8: when the decoder accepts a DEFLATE payload but produces a
byte count different from the declared `uncompSize`, the mismatch is not
fatal — the log carries the size-mismatch warning with both sizes and the
loader still returns the descriptor with the produced (non-null)
buffer. -/
theorem c8_size_mismatch_nonfatal (D : Decoder) (f : RRESFile) (e : RRESEntry)
    (rest : List RRESEntry) (out : List Nat)
    (hm : magicRejected f.hdr = false)
    (he : f.entries = e :: rest)
    (hdefl : e.info.compType = RRES_COMP_DEFLATE)
    (hdec : D e.payload e.info.uncompSize = some out)
    (hmis : e.info.uncompSize ≠ out.length) :
    LogMsg.sizeMismatch e.info.uncompSize (out.length : Int) ∈
      (LoadResource D (some f)).snd ∧
    (∃ bs, (LoadResource D (some f)).fst.data = CBuf.valid bs ∧
       bs.length = e.info.uncompSize) := by
  rw [LoadResource_eq D f e rest hm he]
  unfold loadEntry
  rw [if_pos hdefl]
  dsimp only
  rw [DecompressData_some D e.payload e.info.dataSize e.info.uncompSize out hdec]
  rw [if_neg hmis]
  dsimp only [CBuf.isNull]
  constructor
  · simp
  · exact ⟨_, rfl, take_pad_length out e.info.uncompSize⟩

/-- Witness for `c8_size_mismatch_nonfatal`: `shortDecoder` turns the
DEFLATE entry of `c4File` (declared `uncompSize = 4`) into the single
byte `[42]`. -/
theorem c8_size_mismatch_nonfatal_witness :
    magicRejected c4File.hdr = false ∧
    c4File.entries = c4e :: [] ∧
    c4e.info.compType = RRES_COMP_DEFLATE ∧
    shortDecoder c4e.payload c4e.info.uncompSize = some [42] ∧
    c4e.info.uncompSize ≠ 1 ∧
    LogMsg.sizeMismatch 4 1 ∈ (LoadResource shortDecoder (some c4File)).snd ∧
    (∃ bs, (LoadResource shortDecoder (some c4File)).fst.data = CBuf.valid bs ∧
       bs.length = 4) :=
  ⟨by decide, by decide, by decide, by decide, by decide,
   (c8_size_mismatch_nonfatal shortDecoder c4File c4e [] [42] (by decide) (by decide)
      (by decide) (by decide) (by decide)).1,
   (c8_size_mismatch_nonfatal shortDecoder c4File c4e [] [42] (by decide) (by decide)
      (by decide) (by decide) (by decide)).2⟩

/-- Claim C10: once the magic check passes and an entry is selected — the
first entry for `LoadResource`, the (last) matching entry for
`LoadResourceById` — the descriptor's `type` and `param1..param4` come
from that entry's info header for EVERY decoder behaviour, including a
failing decompression: the failure never resets the scalar fields to the
zero descriptor's values. -/
theorem c10_scalar_fields_kept (D : Decoder) (f : RRESFile) (rid : Int)
    (e : RRESEntry) (hm : magicRejected f.hdr = false) :
    ((∃ rest, f.entries = e :: rest) →
       (LoadResource D (some f)).fst.type = e.info.dataType ∧
       (LoadResource D (some f)).fst.param1 = e.info.param1 ∧
       (LoadResource D (some f)).fst.param2 = e.info.param2 ∧
       (LoadResource D (some f)).fst.param3 = e.info.param3 ∧
       (LoadResource D (some f)).fst.param4 = e.info.param4) ∧
    (lastMatch rid (f.entries.take f.hdr.count) = some e →
       (LoadResourceById D (some f) rid).fst.type = e.info.dataType ∧
       (LoadResourceById D (some f) rid).fst.param1 = e.info.param1 ∧
       (LoadResourceById D (some f) rid).fst.param2 = e.info.param2 ∧
       (LoadResourceById D (some f) rid).fst.param3 = e.info.param3 ∧
       (LoadResourceById D (some f) rid).fst.param4 = e.info.param4) := by
  constructor
  · rintro ⟨rest, he⟩
    rw [LoadResource_eq D f e rest hm he]
    exact loadEntry_scalars D e
  · intro hl
    rw [LoadResourceById_fst D f rid hm, hl]
    exact loadEntry_scalars D e

/-- Witness for `c10_scalar_fields_kept`: on `c4File` the decompression
fails under `failDecoder`, yet both loaders keep type 1 and parameters
21..24 from the entry's header. -/
theorem c10_scalar_fields_kept_witness :
    magicRejected c4File.hdr = false ∧
    lastMatch 5 (c4File.entries.take c4File.hdr.count) = some c4e ∧
    ((LoadResource failDecoder (some c4File)).fst.type = c4e.info.dataType ∧
     (LoadResource failDecoder (some c4File)).fst.param1 = c4e.info.param1 ∧
     (LoadResource failDecoder (some c4File)).fst.param2 = c4e.info.param2 ∧
     (LoadResource failDecoder (some c4File)).fst.param3 = c4e.info.param3 ∧
     (LoadResource failDecoder (some c4File)).fst.param4 = c4e.info.param4) ∧
    ((LoadResourceById failDecoder (some c4File) 5).fst.type = c4e.info.dataType ∧
     (LoadResourceById failDecoder (some c4File) 5).fst.param1 = c4e.info.param1 ∧
     (LoadResourceById failDecoder (some c4File) 5).fst.param2 = c4e.info.param2 ∧
     (LoadResourceById failDecoder (some c4File) 5).fst.param3 = c4e.info.param3 ∧
     (LoadResourceById failDecoder (some c4File) 5).fst.param4 = c4e.info.param4) :=
  ⟨by decide, by decide,
   (c10_scalar_fields_kept failDecoder c4File 5 c4e (by decide)).1 ⟨[], by decide⟩,
   (c10_scalar_fields_kept failDecoder c4File 5 c4e (by decide)).2 (by decide)⟩
